import Mathlib

/-!
Verification development for the ESP_Windy wind-turbine dump-load controller
(src/ESP_Windy.ino).

Modelling choices:
* The `Settings` struct's `float` fields are modelled as exact rationals (ℚ),
  as the design document types them ("real (volts)"); the control decision in
  `loop()` only compares and subtracts these values, so its branch structure
  is preserved exactly.
* The control decision inside `loop()` (lines 72-80) is extracted as the pure
  function `controlStep` of the sample voltage, the settings and the previous
  `dumpActive` value, exactly as the nested `if` chain in the source.
* `handleSave` is modelled on the list of posted form arguments, with
  `server.hasArg` / `server.arg` as list lookups and Arduino
  `String::toFloat` (= C `atof`, non-numeric input yields 0) implemented as
  `atof` below (float rounding of the parsed value is not modelled, consistent
  with the ℚ reading of the fields).
* The EEPROM persistence (`EEPROM.put`/`EEPROM.get` at offset 0, a plain
  memcpy of the struct image) is modelled at the byte level: `SettingsRepr`
  is the in-memory machine record (each `float` member as its 32-bit pattern,
  each `bool` as a `Bool`), `encodeSettings`/`decodeSettings` are the memcpy
  out of / into the 14 data bytes of the struct (the two trailing struct
  padding bytes carry no field data), little-endian as on the ESP32.
  `interpFloat` gives the IEEE-754 binary32 reading of a stored 32-bit
  pattern (`none` for NaN/infinity).
-/

/-- The `Settings` struct of the source, fields in source order, with the
compiled-in default member initializers captured by `defaultSettings`. -/
structure Settings where
  absorptionVoltage : ℚ
  floatVoltage : ℚ
  hysteresis : ℚ
  manualOverride : Bool
  manualDumpLoad : Bool
deriving DecidableEq

/-- The compiled-in defaults from the struct member initializers:
34.0, 32.0, 0.5, false, false. -/
def defaultSettings : Settings :=
  { absorptionVoltage := 34
    floatVoltage := 32
    hysteresis := 1/2
    manualOverride := false
    manualDumpLoad := false }

/-- The control decision of `loop()` (source lines 72-80): given the settings,
the sampled bus voltage and the previous `dumpActive`, compute the next
`dumpActive`.  The `else` branch of the inner chain leaves the state
unchanged. -/
def controlStep (s : Settings) (busVoltage : ℚ) (dumpActive : Bool) : Bool :=
  if s.manualOverride then
    s.manualDumpLoad
  else
    if busVoltage ≥ s.absorptionVoltage then
      true
    else if busVoltage ≤ (s.absorptionVoltage - s.hysteresis) then
      false
    else
      dumpActive

/-- `static bool dumpActive = false;` (source line 69): the engine's carried
state before the first tick. -/
def initialDumpActive : Bool := false

/- ---- Arduino String::toFloat (C atof) ---- -/

/-- Leading-whitespace skip of `atof`. -/
def skipSpace : List Char → List Char
  | c :: cs => if c == ' ' || c == '\t' || c == '\n' || c == '\r' then skipSpace cs else c :: cs
  | [] => []

/-- Parse a maximal run of decimal digits into an accumulator, returning the
value and the rest of the input. -/
def parseDigits : List Char → Nat → Nat × List Char
  | [], acc => (acc, [])
  | c :: cs, acc =>
    if c.isDigit then parseDigits cs (acc * 10 + (c.toNat - 48)) else (acc, c :: cs)

/-- Parse the fractional digits after the decimal point, returning their value,
their count, and the rest of the input. -/
def parseFrac : List Char → Nat → Nat → Nat × Nat × List Char
  | [], v, k => (v, k, [])
  | c :: cs, v, k =>
    if c.isDigit then parseFrac cs (v * 10 + (c.toNat - 48)) (k + 1) else (v, k, c :: cs)

/-- The optional leading sign: the sign factor and the rest of the input. -/
def parseSign : List Char → ℚ × List Char
  | '-' :: r => (-1, r)
  | '+' :: r => (1, r)
  | r => (1, r)

/-- The optional fractional part after the integer digits. -/
def parsePoint : List Char → Nat × Nat × List Char
  | '.' :: r => parseFrac r 0 0
  | r => (0, 0, r)

/-- The optionally-signed exponent digits after `e`/`E`. -/
def expPart (l : List Char) : ℤ :=
  match l with
  | '-' :: r => -(((parseDigits r 0).1 : ℤ))
  | '+' :: r => ((parseDigits r 0).1 : ℤ)
  | r => ((parseDigits r 0).1 : ℤ)

/-- The optional exponent marker and its signed digits. -/
def parseExpo : List Char → ℤ
  | 'e' :: r => expPart r
  | 'E' :: r => expPart r
  | _ => 0

/-- `10 ^ e` for an integer exponent, kept in ℚ and executable. -/
def pow10 (e : ℤ) : ℚ :=
  if 0 ≤ e then (10 ^ e.toNat : ℚ) else 1 / (10 ^ (-e).toNat : ℚ)

/-- C `atof` on a character list: optional whitespace, optional sign, integer
digits, optional fraction, optional exponent; unparseable input yields 0. -/
def atof (l : List Char) : ℚ :=
  let sl := parseSign (skipSpace l)
  let ip := parseDigits sl.2 0
  let fr := parsePoint ip.2
  let mant : ℚ := (ip.1 : ℚ) + (fr.1 : ℚ) / 10 ^ fr.2.1
  sl.1 * mant * pow10 (parseExpo fr.2.2)

/-- Arduino `String::toFloat`: `atof` of the buffer. -/
def toFloat (s : String) : ℚ := atof s.toList

/- ---- the web save handler ---- -/

/-- The posted form arguments of a request: (name, value) pairs. -/
def Args : Type := List (String × String)

/-- `server.hasArg(name)`. -/
def hasArg (args : Args) (n : String) : Bool :=
  List.any args fun p => p.1 == n

/-- `server.arg(name)`: the value of the first argument with that name, or the
empty string. -/
def arg (args : Args) (n : String) : String :=
  match List.find? (fun p => p.1 == n) args with
  | some p => p.2
  | none => ""

def absKey : String := "abs"
def floatKey : String := "float"
def hystKey : String := "hyst"
def overrideKey : String := "override"
def manualKey : String := "manual"

/-- `handleSave` (source lines 116-122): each numeric field is overwritten by
`toFloat` of its argument when the argument is present, and the two booleans
are assigned from argument presence unconditionally.  The subsequent
`EEPROM.put`/`commit` is modelled separately by `encodeSettings`. -/
def handleSave (s : Settings) (args : Args) : Settings :=
  let s1 := if hasArg args absKey then { s with absorptionVoltage := toFloat (arg args absKey) } else s
  let s2 := if hasArg args floatKey then { s1 with floatVoltage := toFloat (arg args floatKey) } else s1
  let s3 := if hasArg args hystKey then { s2 with hysteresis := toFloat (arg args hystKey) } else s2
  { s3 with manualOverride := hasArg args overrideKey
            manualDumpLoad := hasArg args manualKey }

/- ---- EEPROM persistence at the byte level ---- -/

/-- The in-memory machine representation of the `Settings` struct: each
`float` member as its 32-bit pattern, each `bool` member as a `Bool`. -/
structure SettingsRepr where
  absorptionVoltage : Nat
  floatVoltage : Nat
  hysteresis : Nat
  manualOverride : Bool
  manualDumpLoad : Bool
deriving DecidableEq

/-- Little-endian bytes of a 32-bit word, as stored by the ESP32 memcpy. -/
def encodeWord (w : Nat) : List Nat :=
  [w % 256, w / 256 % 256, w / 65536 % 256, w / 16777216 % 256]

/-- `EEPROM.put(0, settings)`: the byte image of the struct's data members
(offsets 0, 4, 8 for the floats, 12, 13 for the bools; a stored `bool` is the
byte 1 or 0). -/
def encodeSettings (r : SettingsRepr) : List Nat :=
  encodeWord r.absorptionVoltage ++ encodeWord r.floatVoltage ++ encodeWord r.hysteresis ++
    [if r.manualOverride then 1 else 0, if r.manualDumpLoad then 1 else 0]

/-- `EEPROM.get(0, settings)`: reinterpret the stored bytes as the struct, with
no validation of any kind.  A `bool` member read from a byte is true iff the
byte is nonzero.  The EEPROM region always holds `sizeof(settings)` bytes, so
the short-list fallback is unreachable. -/
def decodeSettings : List Nat → SettingsRepr
  | b0 :: b1 :: b2 :: b3 :: b4 :: b5 :: b6 :: b7 :: b8 :: b9 :: b10 :: b11 :: b12 :: b13 :: _ =>
    { absorptionVoltage := b0 + 256 * b1 + 65536 * b2 + 16777216 * b3
      floatVoltage := b4 + 256 * b5 + 65536 * b6 + 16777216 * b7
      hysteresis := b8 + 256 * b9 + 65536 * b10 + 16777216 * b11
      manualOverride := b12 != 0
      manualDumpLoad := b13 != 0 }
  | _ =>
    { absorptionVoltage := 0, floatVoltage := 0, hysteresis := 0
      manualOverride := false, manualDumpLoad := false }

/-- `2 ^ e` for an integer exponent, in ℚ. -/
def pow2 (e : ℤ) : ℚ :=
  if 0 ≤ e then (2 ^ e.toNat : ℚ) else 1 / (2 ^ (-e).toNat : ℚ)

/-- The IEEE-754 binary32 value held by a 32-bit pattern: `none` for NaN and
the infinities (exponent field 255), otherwise the exact rational value. -/
def interpFloat (w : Nat) : Option ℚ :=
  let sign : Nat := w / 2 ^ 31 % 2
  let ex : Nat := w / 2 ^ 23 % 256
  let mant : Nat := w % 2 ^ 23
  if ex = 255 then none
  else
    let mag : ℚ :=
      if ex = 0 then ((mant : ℚ) / 2 ^ 23) * pow2 (-126)
      else (((2 ^ 23 + mant : Nat) : ℚ) / 2 ^ 23) * pow2 ((ex : ℤ) - 127)
    some (if sign = 1 then -mag else mag)

/-- The uninitialized first-boot EEPROM content: all bytes 0xFF over the
`sizeof(settings)` region. -/
def firstBootBytes : List Nat := List.replicate 16 255

/-- The byte-level image of `defaultSettings`: the IEEE-754 binary32 patterns
of 34.0f, 32.0f and 0.5f, and both flags clear. -/
def defaultSettingsRepr : SettingsRepr :=
  { absorptionVoltage := 1107820544
    floatVoltage := 1107296256
    hysteresis := 1056964608
    manualOverride := false
    manualDumpLoad := false }

/-- Sanity: the stored default bit patterns mean exactly the default rational
values 34, 32 and 1/2. -/
theorem defaultSettingsRepr_means_defaults :
    interpFloat defaultSettingsRepr.absorptionVoltage = some defaultSettings.absorptionVoltage ∧
    interpFloat defaultSettingsRepr.floatVoltage = some defaultSettings.floatVoltage ∧
    interpFloat defaultSettingsRepr.hysteresis = some defaultSettings.hysteresis := by
  refine ⟨?_, ?_, ?_⟩
  · norm_num [interpFloat, pow2, defaultSettingsRepr, defaultSettings]
    rw [show Int.toNat 5 = 5 from rfl]
    norm_num
  · norm_num [interpFloat, pow2, defaultSettingsRepr, defaultSettings]
    rw [show Int.toNat 5 = 5 from rfl]
    norm_num
  · norm_num [interpFloat, pow2, defaultSettingsRepr, defaultSettings]

/-- Claim C1: with manual override off and the bus voltage strictly inside the
dead-band between absorptionVoltage - hysteresis and absorptionVoltage, one
decision step leaves dumpActive equal to the previous dumpActive. -/
theorem deadband_holds_state (s : Settings) (v : ℚ) (d : Bool)
    (hov : s.manualOverride = false)
    (hlo : s.absorptionVoltage - s.hysteresis < v)
    (hhi : v < s.absorptionVoltage) :
    controlStep s v d = d := by
  simp [controlStep, hov, not_le.mpr hhi, not_le.mpr hlo]

/-- Concrete instance of C1: with the default settings and bus voltage 33.8
inside the dead-band (33.5, 34), a previously active dump load stays active. -/
theorem deadband_holds_state_check :
    controlStep defaultSettings (169/5) true = true :=
  deadband_holds_state defaultSettings (169/5) true rfl
    (by norm_num [defaultSettings]) (by norm_num [defaultSettings])

/-- Claim C2: with manual override on, one decision step sets dumpActive to
manualDumpLoad for every bus voltage and every previous state. -/
theorem manual_override_forces (s : Settings) (v : ℚ) (d : Bool)
    (hov : s.manualOverride = true) :
    controlStep s v d = s.manualDumpLoad := by
  simp [controlStep, hov]

/-- Concrete instance of C2 (scenario D): override on, manual dump load on,
bus voltage 0 gives an active dump load. -/
theorem manual_override_forces_check :
    controlStep { defaultSettings with manualOverride := true, manualDumpLoad := true } 0 false
      = true :=
  manual_override_forces { defaultSettings with manualOverride := true, manualDumpLoad := true }
    0 false rfl

/-- Claim C3: with manual override off and the bus voltage at or above
absorptionVoltage, one decision step turns the dump load on regardless of the
previous state. -/
theorem high_voltage_switches_on (s : Settings) (v : ℚ) (d : Bool)
    (hov : s.manualOverride = false) (hv : v ≥ s.absorptionVoltage) :
    controlStep s v d = true := by
  simp [controlStep, hov, hv]

/-- Concrete instance of C3 (scenario A): defaults (absorption 34, hysteresis
0.5), previous state off, bus voltage exactly 34 turns the dump load on. -/
theorem high_voltage_switches_on_check :
    controlStep defaultSettings 34 false = true :=
  high_voltage_switches_on defaultSettings 34 false rfl (by norm_num [defaultSettings])

/-- Counterexample to claim C4 as stated: with hysteresis 0 the premise
busVoltage ≤ absorptionVoltage - hysteresis holds at busVoltage 34 = the
absorption threshold, yet the step turns the dump load on (the switch-on
branch is tested first), not off as the claim requires. -/
theorem low_voltage_claim_fails_at_zero_hysteresis :
    (34 : ℚ) ≤ (⟨34, 32, 0, false, false⟩ : Settings).absorptionVoltage -
      (⟨34, 32, 0, false, false⟩ : Settings).hysteresis ∧
    controlStep (⟨34, 32, 0, false, false⟩ : Settings) 34 false = true := by
  constructor
  · norm_num
  · norm_num [controlStep]

/-- Claim C4 amended: with manual override off and a strictly positive
hysteresis, a bus voltage at or below absorptionVoltage - hysteresis turns the
dump load off regardless of the previous state. -/
theorem low_voltage_switches_off (s : Settings) (v : ℚ) (d : Bool)
    (hov : s.manualOverride = false) (hpos : 0 < s.hysteresis)
    (hv : v ≤ s.absorptionVoltage - s.hysteresis) :
    controlStep s v d = false := by
  have hlt : ¬ (v ≥ s.absorptionVoltage) := by
    simp only [ge_iff_le, not_le]
    linarith
  simp [controlStep, hov, hlt, hv]

/-- Concrete instance of amended C4 (scenario C): defaults, previous state on,
bus voltage 33.4 ≤ 33.5 turns the dump load off. -/
theorem low_voltage_switches_off_check :
    controlStep defaultSettings (167/5) true = false :=
  low_voltage_switches_off defaultSettings (167/5) true rfl
    (by norm_num [defaultSettings]) (by norm_num [defaultSettings])

/-- Claim C5 evaluated at the failing input: `EEPROM.get` applies no
validation, so a first-boot medium of all 0xFF bytes loads as a settings
record with both boolean flags true and NaN bit patterns (interpreted value
`none`) for absorptionVoltage and hysteresis - not the compiled-in default
record. -/
theorem load_trusts_raw_bytes :
    decodeSettings firstBootBytes ≠ defaultSettingsRepr ∧
    (decodeSettings firstBootBytes).manualOverride = true ∧
    (decodeSettings firstBootBytes).manualDumpLoad = true ∧
    interpFloat (decodeSettings firstBootBytes).absorptionVoltage = none ∧
    interpFloat (decodeSettings firstBootBytes).hysteresis = none := by
  refine ⟨by decide, rfl, rfl, rfl, rfl⟩

/-- Claim C6 evaluated at the failing inputs: `handleSave` applies no
validation, so a posted hysteresis of "-1" is stored as the negative value -1
and a non-numeric hysteresis "abc" is coerced to 0 and stored, replacing the
prior value 1/2 in both cases. -/
theorem handleSave_coerces_invalid :
    (handleSave defaultSettings [(hystKey, "-1")]).hysteresis = -1 ∧
    (handleSave defaultSettings [(hystKey, "abc")]).hysteresis = 0 ∧
    defaultSettings.hysteresis = 1/2 := by
  refine ⟨?_, ?_, by norm_num [defaultSettings]⟩ <;>
    simp [handleSave, hasArg, arg, hystKey, absKey, floatKey, overrideKey, manualKey,
      defaultSettings, toFloat, atof, skipSpace, parseSign, parseDigits, parsePoint,
      parseFrac, parseExpo, expPart, pow10]

/-- Claim C7: the EEPROM round trip `put` then `get` (a memcpy of the struct
image out and back in) reproduces every representable settings record
exactly. -/
theorem save_load_roundtrip (r : SettingsRepr)
    (h1 : r.absorptionVoltage < 2 ^ 32) (h2 : r.floatVoltage < 2 ^ 32)
    (h3 : r.hysteresis < 2 ^ 32) :
    decodeSettings (encodeSettings r) = r := by
  obtain ⟨a, f, h, mo, md⟩ := r
  simp only [encodeSettings, encodeWord, List.cons_append, List.nil_append,
    decodeSettings] at *
  simp only [SettingsRepr.mk.injEq]
  refine ⟨?_, ?_, ?_, ?_, ?_⟩
  · omega
  · omega
  · omega
  · cases mo <;> rfl
  · cases md <;> rfl

/-- Concrete instance of C7: the default record round-trips unchanged. -/
theorem save_load_roundtrip_check :
    decodeSettings (encodeSettings defaultSettingsRepr) = defaultSettingsRepr :=
  save_load_roundtrip defaultSettingsRepr (by decide) (by decide) (by decide)

/-- Claim C8: `handleSave` overwrites exactly the numeric fields whose
argument is present (absent numeric arguments keep the prior value), and
assigns both boolean flags from argument presence on every submission. -/
theorem handleSave_updates_exactly_present (s : Settings) (args : Args) :
    (handleSave s args).absorptionVoltage =
      (if hasArg args absKey then toFloat (arg args absKey) else s.absorptionVoltage) ∧
    (handleSave s args).floatVoltage =
      (if hasArg args floatKey then toFloat (arg args floatKey) else s.floatVoltage) ∧
    (handleSave s args).hysteresis =
      (if hasArg args hystKey then toFloat (arg args hystKey) else s.hysteresis) ∧
    (handleSave s args).manualOverride = hasArg args overrideKey ∧
    (handleSave s args).manualDumpLoad = hasArg args manualKey := by
  simp only [handleSave]
  split_ifs <;> simp_all

/-- Claim C9: the carried state starts as false (`static bool dumpActive =
false`), and a first tick in the dead-band with override off therefore yields
an inactive dump load. -/
theorem initial_state_not_dumping (s : Settings) (v : ℚ)
    (hov : s.manualOverride = false)
    (hlo : s.absorptionVoltage - s.hysteresis < v)
    (hhi : v < s.absorptionVoltage) :
    initialDumpActive = false ∧ controlStep s v initialDumpActive = false := by
  refine ⟨rfl, ?_⟩
  simp [controlStep, initialDumpActive, hov, not_le.mpr hhi, not_le.mpr hlo]

/-- Concrete instance of C9: defaults, first-tick voltage 33.9 in the
dead-band gives an inactive dump load. -/
theorem initial_state_not_dumping_check :
    initialDumpActive = false ∧
    controlStep defaultSettings (339/10) initialDumpActive = false :=
  initial_state_not_dumping defaultSettings (339/10) rfl
    (by norm_num [defaultSettings]) (by norm_num [defaultSettings])

/-- Claim C10: with manual override off the decision step is monotone
non-decreasing in the bus voltage for any fixed previous state and any
hysteresis (including zero and negative), and a voltage at or above
absorptionVoltage always switches on, so the control sense is never
inverted. -/
theorem controlStep_monotone (s : Settings) (v1 v2 : ℚ) (d : Bool)
    (hov : s.manualOverride = false) (hv : v1 ≤ v2) :
    (controlStep s v1 d = true → controlStep s v2 d = true) ∧
    (s.absorptionVoltage ≤ v2 → controlStep s v2 d = true) := by
  have habs : ∀ w, s.absorptionVoltage ≤ w → controlStep s w d = true := by
    intro w hw
    simp [controlStep, hov, hw]
  constructor
  · intro h1
    by_cases hab2 : s.absorptionVoltage ≤ v2
    · exact habs v2 hab2
    · have hab1 : ¬ s.absorptionVoltage ≤ v1 := fun hh => hab2 (hh.trans hv)
      by_cases hlo1 : v1 ≤ s.absorptionVoltage - s.hysteresis
      · simp [controlStep, hov, hab1, hlo1] at h1
      · have hlo2 : ¬ v2 ≤ s.absorptionVoltage - s.hysteresis := fun hh => hlo1 (hv.trans hh)
        simp [controlStep, hov, hab1, hlo1] at h1
        simp [controlStep, hov, hab2, hlo2, h1]
  · exact habs v2

/-- Concrete instance of C10: even with a negative hysteresis of -1, a bus
voltage of 35 ≥ absorption 34 switches the dump load on. -/
theorem controlStep_monotone_check :
    controlStep (⟨34, 32, -1, false, false⟩ : Settings) 35 false = true :=
  (controlStep_monotone (⟨34, 32, -1, false, false⟩ : Settings) 33 35 false rfl
    (by norm_num)).2 (by norm_num)
